import Mathlib

/-!
Formal model of the avii_pro_backend service (engine.py, main.py, database.py).

Python strings are modelled as Lean `String` (a list of characters, matching
Python's code-point view). Python string primitives used by the code are
modelled explicitly below (`pyLower`, `pyStrip`, `pyUpper`, `pySlice`,
`pyJoin`, `pyRange`), following CPython semantics on the ASCII fragment the
code manipulates. External collaborators (the LLM, the web-search API, the
Chroma vector index, SQLAlchemy's relational store) are modelled as oracles or
explicit state, as documented at each definition.
-/

/-- Python `str.lower()`: lowercase every character. -/
def pyLower (s : String) : String := String.mk (s.data.map Char.toLower)

/-- Python `str.upper()`: uppercase every character. -/
def pyUpper (s : String) : String := String.mk (s.data.map Char.toUpper)

/-- Python `str.strip()`: drop leading and trailing whitespace. -/
def pyStrip (s : String) : String :=
  String.mk (((s.data.dropWhile Char.isWhitespace).reverse.dropWhile Char.isWhitespace).reverse)

/-- Python slice `s[i:i+n]`: drop `i` characters, keep at most `n`. -/
def pySlice (s : String) (i n : Nat) : String := String.mk ((s.data.drop i).take n)

/-- Python `sep.join(xs)`. -/
def pyJoin (sep : String) : List String → String
  | [] => ""
  | [x] => x
  | x :: y :: xs => x ++ sep ++ pyJoin sep (y :: xs)

/-- Python `range(start, stop, step)` for a positive `step`. -/
def pyRange (start stop step : Nat) : List Nat :=
  (List.range ((stop - start + step - 1) / step)).map (fun k => start + k * step)

/-- Newline separator used by `"\n".join` in `_search_pdf_sync`. -/
def nl : String := "\n"

/-!
Python `str(user_id)` on a non-negative integer is `Nat.repr`. The user
isolation argument (claim C6) needs that this decimal rendering is injective,
which we prove by exhibiting a decoder for `Nat.toDigitsCore`.
-/

/-- Fold step reading a decimal digit character onto an accumulator. -/
def decimalStep (a : Nat) (c : Char) : Nat := a * 10 + (c.toNat - 48)

theorem digitChar_decode : ∀ m, m < 10 → (Nat.digitChar m).toNat - 48 = m := by decide

/-- Value of the accumulator `a` followed by the decimal digits of `n`. -/
def pushNum (a n : Nat) : Nat :=
  if n < 10 then a * 10 + n
  else pushNum a (n / 10) * 10 + n % 10
termination_by n
decreasing_by exact Nat.div_lt_self (by omega) (by omega)

theorem pushNum_zero (n : Nat) : pushNum 0 n = n := by
  induction n using Nat.strong_induction_on with
  | _ n ih =>
    unfold pushNum
    split
    · omega
    · rename_i h
      rw [ih (n / 10) (Nat.div_lt_self (by omega) (by omega))]
      omega

theorem toDigitsCore_foldl (f : Nat) :
    ∀ (n a : Nat) (ds : List Char), n < f →
      (Nat.toDigitsCore 10 f n ds).foldl decimalStep a = ds.foldl decimalStep (pushNum a n) := by
  induction f with
  | zero => intro n a ds h; exact absurd h (Nat.not_lt_zero n)
  | succ f ih =>
    intro n a ds h
    by_cases h10 : n / 10 = 0
    · have hn : n < 10 := by omega
      simp only [Nat.toDigitsCore, h10, if_true, List.foldl_cons]
      have hmod : n % 10 = n := Nat.mod_eq_of_lt hn
      unfold pushNum
      simp only [decimalStep, hmod, digitChar_decode n hn, if_pos hn]
    · have hge : 10 ≤ n := by
        by_contra hlt
        exact h10 (Nat.div_eq_of_lt (by omega))
      have hdiv : n / 10 < f := by
        have := Nat.div_lt_self (show 0 < n by omega) (show 1 < 10 by omega)
        omega
      simp only [Nat.toDigitsCore, h10, if_false]
      rw [ih (n / 10) a (Nat.digitChar (n % 10) :: ds) hdiv, List.foldl_cons]
      have hc : decimalStep (pushNum a (n / 10)) (Nat.digitChar (n % 10)) = pushNum a n := by
        unfold decimalStep
        rw [digitChar_decode (n % 10) (Nat.mod_lt n (by omega))]
        conv_rhs => unfold pushNum
        simp only [if_neg (show ¬ n < 10 by omega)]
      rw [hc]

theorem toDigits_decode (n : Nat) : (Nat.toDigits 10 n).foldl decimalStep 0 = n := by
  unfold Nat.toDigits
  rw [toDigitsCore_foldl (n + 1) n 0 [] (Nat.lt_succ_self n)]
  simpa using pushNum_zero n

/-- Python `str` on a natural number is injective. -/
theorem natRepr_injective : ∀ m n : Nat, Nat.repr m = Nat.repr n → m = n := by
  intro m n h
  have hdig : Nat.toDigits 10 m = Nat.toDigits 10 n := by
    have hdata := congrArg String.data h
    simpa [Nat.repr, List.asString] using hdata
  calc m = (Nat.toDigits 10 m).foldl decimalStep 0 := (toDigits_decode m).symm
    _ = (Nat.toDigits 10 n).foldl decimalStep 0 := by rw [hdig]
    _ = n := toDigits_decode n

/-!
Document ingestion and the vector index (engine.py).

The Chroma collection is modelled as a list of stored chunks. The operations
the repository invokes on it (`get`, `delete(ids=...)`, `add`,
`query(..., where={"user_id": ...})`) are modelled from the spec's external
interface description: batched insert, bulk fetch of all identifiers, bulk
delete by identifier list, and nearest-neighbor query with an equality filter
on metadata. Nearest-neighbor ranking depends on embeddings outside this
repository and is abstracted as a `rank` oracle.
-/

/-- One stored chunk: identifier, raw text slice, owning-user key, filename. -/
structure VChunk where
  id : String
  text : String
  user_id : String
  filename : String
deriving DecidableEq

/-- Modelled from the spec: the index "supports nearest-neighbor query with an
equality filter on metadata". `rank` stands for the embedding-based ordering;
results are drawn only from chunks whose metadata matches the filter, and at
most `nResults` are returned. -/
def chromaQuery (store : List VChunk) (userKey : String) (nResults : Nat)
    (rank : List VChunk → List VChunk) : List VChunk :=
  (rank (store.filter (fun c => c.user_id == userKey))).take nResults

/-- Modelled from the spec: "supports bulk delete by identifier list". -/
def chromaDeleteIds (store : List VChunk) (ids : List String) : List VChunk :=
  store.filter (fun c => ! ids.contains c.id)

/-- Chunking from `ingest_pdf.parse_chunk_sync` (engine.py lines 190-207),
starting from the already-extracted text: return 0 chunks if the stripped
text is empty, else slice `text[i:i+1000]` for `i in range(0, len(text), 800)`. -/
def parse_chunk_sync (text : String) : List String :=
  if pyStrip text = "" then []
  else (pyRange 0 text.length 800).map (fun i => pySlice text i 1000)

/-- Chunk rows built by `parse_chunk_sync` before `collection.add`: each chunk
is paired with a fresh UUID (modelled as a caller-supplied id list) and
metadata `{"user_id": str(user_id), "filename": filename}`. -/
def ingest_chunks (text filename : String) (user_id : Nat) (ids : List String) : List VChunk :=
  (ids.zip (parse_chunk_sync text)).map (fun p => ⟨p.1, p.2, Nat.repr user_id, filename⟩)

/-- Full `ingest_pdf` on the extracted text: no-op returning 0 without a
collection or for whitespace-only text, else add all chunk rows in one batch
and return the chunk count. -/
def ingest_pdf (col : Option (List VChunk)) (text filename : String) (user_id : Nat)
    (ids : List String) : Option (List VChunk) × Nat :=
  match col with
  | none => (none, 0)
  | some store =>
    let chunks := parse_chunk_sync text
    if chunks.length = 0 then (some store, 0)
    else (some (store ++ ingest_chunks text filename user_id ids), chunks.length)

/-- Memory reset from `reset_memory.clear_all_sync` (engine.py lines 107-124):
fetch every stored identifier, and if there are any, bulk-delete them all.
Returns the new index state and the function's boolean result. -/
def reset_memory (col : Option (List VChunk)) : Option (List VChunk) × Bool :=
  match col with
  | none => (none, false)
  | some store =>
    let all_ids := store.map (fun c => c.id)
    if all_ids.isEmpty then (some store, false)
    else (some (chromaDeleteIds store all_ids), true)

/-!
The retrieval orchestrator (engine.py lines 57-185).

The three external calls made by `determine_intent`, `_search_web_sync`,
`_search_pdf_sync` and the final completion are oracles recorded in `Env`:
an `Option`/`Except` value `none`/`.error` models the call raising, which the
source swallows (`except:` blocks) or converts (the completion handler).
-/

/-- One web-search result as consumed by `_search_web_sync`. -/
structure WebResult where
  title : String
  content : String
deriving DecidableEq

/-- Oracle environment for one `run_agent` invocation. -/
structure Env where
  intentResp : Option String
  col : Option (List VChunk)
  rank : List VChunk → List VChunk
  pdfExc : Bool
  tavilyAvailable : Bool
  webResults : Option (List WebResult)
  completion : Except String String
  today : String

/-- Greeting list short-circuited by `determine_intent` (engine.py line 59). -/
def intentGreetings : List String := ["hi", "hello", "hey", "sup", "how are you"]

/-- Intent classification (engine.py lines 57-79): greeting short-circuit,
then one LLM call whose stripped-uppercased answer is kept only if it is
WEB or PDF; any other answer, and any exception, yields CHAT. -/
def determine_intent (env : Env) (user_query : String) : String :=
  if intentGreetings.contains (pyStrip (pyLower user_query)) then "CHAT"
  else
    match env.intentResp with
    | none => "CHAT"
    | some content =>
      let intent := pyUpper (pyStrip content)
      if intent = "WEB" ∨ intent = "PDF" then intent else "CHAT"

/-- Web search (engine.py lines 81-90): empty context if the client is
missing or the call raises, else concatenate the results, each body truncated
to 400 characters. -/
def search_web_sync (env : Env) (query : String) : String :=
  if env.tavilyAvailable = false then ""
  else
    match env.webResults with
    | none => ""
    | some rs =>
      rs.foldl
        (fun context r =>
          context ++ "Source: " ++ r.title ++ "\nContent: " ++ pySlice r.content 0 400
            ++ "\n---\n")
        ""

/-- Document search (engine.py lines 92-104, source name `_search_pdf_sync`):
`None` without a collection or on an exception; else query the index with the
mandatory `user_id` equality filter, top 5, and join the returned document
texts with newlines when there is at least one. -/
def search_pdf_sync (env : Env) (query : String) (user_id : String) : Option String :=
  match env.col with
  | none => none
  | some store =>
    if env.pdfExc then none
    else
      let docs := (chromaQuery store user_id 5 env.rank).map (fun c => c.text)
      if 0 < docs.length then some (pyJoin nl docs) else none

/-- Greeting list used by `run_agent`'s `is_greeting` check (engine.py line 135). -/
def runAgentGreetings : List String := ["hi", "hello", "hey"]

/-- Default persona (engine.py line 151). -/
def defaultPersona : String := "You are Avii Pro, a helpful AI assistant."

/-- Persona resolution (engine.py line 151): the caller-supplied instruction
is used only when present, truthy, and longer than 5 characters. -/
def base_persona_of (system_instruction : Option String) : String :=
  match system_instruction with
  | some s => if s ≠ "" ∧ 5 < s.length then s else defaultPersona
  | none => defaultPersona

/-- Document-retrieval step of `run_agent` (engine.py lines 137-142):
result is (context, source label, was `_search_pdf_sync` invoked). -/
def pdf_step (env : Env) (query : String) (user_id : Nat) (is_greeting : Bool)
    (intent : String) : String × String × Bool :=
  if is_greeting = false ∧ (intent = "PDF" ∨ (intent = "CHAT" ∧ env.col.isSome = true)) then
    match search_pdf_sync env query (Nat.repr user_id) with
    | some pdf_data =>
      if pdf_data = "" then ("", "General Knowledge", true)
      else (pdf_data, "Uploaded Document", true)
    | none => ("", "General Knowledge", true)
  else ("", "General Knowledge", false)

/-- Web-retrieval step of `run_agent` (engine.py lines 144-148):
result is (context, source label, was `_search_web_sync` invoked). -/
def web_step (env : Env) (query : String) (use_web : Bool) (is_greeting : Bool)
    (intent : String) (context1 label1 : String) : String × String × Bool :=
  if is_greeting = false ∧ context1 = "" ∧ use_web = true ∧ (intent = "WEB" ∨ intent = "PDF") then
    let web_data := search_web_sync env query
    if web_data = "" then (context1, label1, true) else (web_data, "Web Search", true)
  else (context1, label1, false)

/-- Final system prompt assembled by `run_agent` (engine.py lines 154-166). -/
def mkSystemPrompt (persona today source context : String) : String :=
  "\n    " ++ persona ++ "\n    \n    CONTEXTUAL INFORMATION:\n    - Current Date: "
    ++ today ++ "\n    - Context Source: " ++ source ++ "\n    - Retrieved Context: "
    ++ (if context = "" then "None (Use internal knowledge)" else context)
    ++ "\n    \n    GUIDELINES:\n    - If context is provided, prioritize it for your answer."
    ++ "\n    - If the user asks for code, provide clean, commented code."
    ++ "\n    - If the user asks for math, use LaTeX formatting.\n    "

/-- Observable outcome of one `run_agent` call. `sourceLabel` is the label the
function returns; `resolvedSource` is the value of the `source_label` variable
after retrieval (the two differ only on the completion-error path, which
returns the literal "Error"). `pdfSearched`/`webSearched` record whether the
corresponding search helper was invoked. -/
structure AgentResult where
  answer : String
  sourceLabel : String
  resolvedSource : String
  pdfSearched : Bool
  webSearched : Bool
  basePersona : String
  msgs : List (String × String)
deriving DecidableEq

/-- The agent (engine.py lines 128-185): classify, conditionally retrieve
document then web context, resolve the persona, build the prompt and message
list, and run the completion, converting any completion exception into a
user-visible error string labelled "Error". -/
def run_agent (env : Env) (query : String) (history : List (String × String))
    (use_web : Bool) (user_id : Nat) (system_instruction : Option String) : AgentResult :=
  let intent := determine_intent env query
  let is_greeting := runAgentGreetings.contains (pyStrip (pyLower query))
  let s1 := pdf_step env query user_id is_greeting intent
  let s2 := web_step env query use_web is_greeting intent s1.1 s1.2.1
  let persona := base_persona_of system_instruction
  let prompt := mkSystemPrompt persona env.today s2.2.1 s2.1
  let msgs := ("system", prompt) :: (history ++ [("user", query)])
  match env.completion with
  | .ok text => ⟨text, s2.2.1, s2.2.1, s1.2.2, s2.2.2, persona, msgs⟩
  | .error e => ⟨"I encountered an error: " ++ e, "Error", s2.2.1, s1.2.2, s2.2.2, persona, msgs⟩

/-!
The relational store (database.py, main.py).

Rows are kept as lists; list order models insertion order (timestamps and
autoincrement ids are omitted, no claim depends on them). Two deletion
operations appear in main.py:

* `delete_session` uses ORM `db.delete(session)`, which applies the
  relationship cascade "all, delete-orphan" declared in database.py and so
  removes the session's messages;
* `reset_db` uses the bulk `Query.delete(synchronize_session=False)`, which
  emits a single `DELETE FROM sessions WHERE user_id = ...`. SQLAlchemy's
  documented bulk-delete semantics do not apply ORM relationship cascades, and
  the schema declares no `ON DELETE CASCADE` on `messages.session_id` (under
  the default SQLite configuration foreign keys are not enforced), so message
  rows survive with dangling session references.
-/

/-- A `sessions` row (database.py lines 45-54). -/
structure SessionRow where
  id : String
  user_id : Nat
  title : String
deriving DecidableEq

/-- A `messages` row (database.py lines 56-64). -/
structure MessageRow where
  session_id : String
  role : String
  content : String
deriving DecidableEq

/-- The relational store: the `sessions` and `messages` tables. -/
structure RelDB where
  sessions : List SessionRow
  messages : List MessageRow
deriving DecidableEq

/-- ORM delete of one session (main.py `delete_session`, lines 235-242):
the declared cascade removes the session's messages with it. -/
def delete_session_orm (db : RelDB) (sid : String) : RelDB :=
  { sessions := db.sessions.filter (fun s => ! (s.id == sid)),
    messages := db.messages.filter (fun m => ! (m.session_id == sid)) }

/-- Relational effect of `reset_db` (main.py lines 256-267): a bulk DELETE of
the calling user's sessions. Per the bulk-delete semantics noted above, the
messages table is untouched. (`reset_memory` then clears the vector index,
which is separate state.) -/
def reset_db (db : RelDB) (uid : Nat) : RelDB :=
  { db with sessions := db.sessions.filter (fun s => ! (s.user_id == uid)) }

/-- Request body of the `/chat` endpoint (fields the model uses). -/
structure ChatReq where
  session_id : String
  query : String
deriving DecidableEq

/-- Response body of the `/chat` endpoint. -/
structure ChatResp where
  response : String
  source : String
  session_id : String
deriving DecidableEq

/-- The `/chat` endpoint (main.py lines 175-218): create the session if the
caller does not own one with this id, append the user message, run the agent
(`agentOutcome` models the awaited call returning a pair or raising), convert
an exception into the fallback error text with source "Error", and append the
model message. -/
def chat_endpoint (db : RelDB) (uid : Nat) (req : ChatReq)
    (agentOutcome : Except String (String × String)) : RelDB × ChatResp :=
  let hasSession := db.sessions.any (fun s => s.id == req.session_id && s.user_id == uid)
  let db1 :=
    if hasSession then db
    else { db with
      sessions := db.sessions ++ [⟨req.session_id, uid, pySlice req.query 0 30 ++ "..."⟩] }
  let db2 := { db1 with
    messages := db1.messages ++ [(⟨req.session_id, "user", req.query⟩ : MessageRow)] }
  let rt :=
    match agentOutcome with
    | .ok p => p
    | .error e => ("I'm having trouble thinking right now. Error: " ++ e, "Error")
  let db3 := { db2 with
    messages := db2.messages ++ [(⟨req.session_id, "model", rt.1⟩ : MessageRow)] }
  (db3, ⟨rt.1, rt.2, req.session_id⟩)

/-!
Claim theorems.
-/

/-- Chunk count of `parse_chunk_sync` for text that is non-empty after
stripping: one chunk per start index in range(0, L, 800), i.e. ceil(L/800). -/
theorem parse_chunk_sync_length (text : String) (h : pyStrip text ≠ "") :
    (parse_chunk_sync text).length = (text.length + 799) / 800 := by
  simp [parse_chunk_sync, h, pyRange]

/-- Stripping an all-letter text changes nothing. -/
theorem pyStrip_replicate (n : Nat) :
    pyStrip (String.mk (List.replicate n 'a')) = String.mk (List.replicate n 'a') := by
  have ha : Char.isWhitespace 'a' = false := by decide
  simp [pyStrip, List.dropWhile_replicate, ha]

/-- A non-empty all-letter text stays non-empty after stripping. -/
theorem pyStrip_replicate_ne (n : Nat) (hn : 0 < n) :
    pyStrip (String.mk (List.replicate n 'a')) ≠ "" := by
  rw [pyStrip_replicate]
  intro hcontra
  have hlen := congrArg String.length hcontra
  simp at hlen
  omega

/-- C1 (amended): for extracted text of length L that is non-empty after
whitespace stripping, ingestion produces ceil(L/800) = (L+799)/800 chunks
(one per start index in range(0, L, 800)); whitespace-only text produces no
chunks; and a 2400-character text yields exactly the three chunks
[0,1000), [800,1800), [1600,2400). -/
theorem C1_chunk_count (text : String) :
    (pyStrip text = "" → parse_chunk_sync text = []) ∧
    (pyStrip text ≠ "" → (parse_chunk_sync text).length = (text.length + 799) / 800) ∧
    (pyStrip text ≠ "" → text.length = 2400 →
      parse_chunk_sync text =
        [pySlice text 0 1000, pySlice text 800 1000, pySlice text 1600 1000]) := by
  refine ⟨fun h => by simp [parse_chunk_sync, h], parse_chunk_sync_length text, fun h hlen => ?_⟩
  have hr : pyRange 0 2400 800 = [0, 800, 1600] := by decide
  simp [parse_chunk_sync, h, hlen, hr]

/-- A 2400-character extracted text, as in the spec's ingestion scenario. -/
def aText : String := String.mk (List.replicate 2400 'a')

/-- Witness for C1_chunk_count at the 2400-character scenario text. -/
theorem C1_chunk_count_witness :
    (parse_chunk_sync aText).length = (aText.length + 799) / 800 ∧
    parse_chunk_sync aText =
      [pySlice aText 0 1000, pySlice aText 800 1000, pySlice aText 1600 1000] :=
  ⟨(C1_chunk_count aText).2.1 (pyStrip_replicate_ne 2400 (by omega)),
   (C1_chunk_count aText).2.2 (pyStrip_replicate_ne 2400 (by omega))
     (by rw [aText, String.length_mk, List.length_replicate])⟩

/-- An 801-character extracted text, inside the claim's 0 < L <= 1000 band. -/
def bText : String := String.mk (List.replicate 801 'a')

/-- C1 counterexample: the claim predicts exactly 1 chunk for any text with
0 < L <= 1000, but an 801-character text produces 2 chunks
(range(0, 801, 800) = [0, 800]). -/
theorem C1_counterexample :
    bText.length = 801 ∧ (parse_chunk_sync bText).length = 2 ∧
    ¬ (parse_chunk_sync bText).length = 1 := by
  have hlen : bText.length = 801 := by
    rw [bText, String.length_mk, List.length_replicate]
  have h2 : (parse_chunk_sync bText).length = 2 := by
    rw [parse_chunk_sync_length bText (pyStrip_replicate_ne 801 (by omega)), hlen]
  exact ⟨hlen, h2, by omega⟩

/-- Session and message fixture: user 1 owns session s1 holding two messages. -/
def c3Session : SessionRow := ⟨"s1", 1, "hi there ..."⟩

/-- First message of session s1. -/
def c3Msg1 : MessageRow := ⟨"s1", "user", "hi there"⟩

/-- Second message of session s1. -/
def c3Msg2 : MessageRow := ⟨"s1", "model", "hello"⟩

/-- The store before user 1 calls /reset-db. -/
def c3DB : RelDB := ⟨[c3Session], [c3Msg1, c3Msg2]⟩

/-- C3 (code bug witness): after user 1's /reset-db, the session row is gone
but both of its messages remain in the message log — the bulk
`Query.delete(synchronize_session=False)` bypasses the ORM cascade declared in
database.py and no database-level cascade exists, so the deletion does not
cascade to messages as the spec states. -/
theorem C3_reset_db_orphans_messages :
    (reset_db c3DB 1).sessions = [] ∧
    (reset_db c3DB 1).messages = [c3Msg1, c3Msg2] := by decide

/-- C4: a memory reset empties the whole document index — afterwards it
contains no chunks for any user, not only the caller's. -/
theorem C4_reset_clears_index (store : List VChunk) :
    (reset_memory (some store)).1 = some [] := by
  simp only [reset_memory]
  by_cases h : (store.map (fun c => c.id)).isEmpty
  · have hnil : store = [] := by
      cases store with
      | nil => rfl
      | cons c cs => simp at h
    simp [h, hnil]
  · simp only [h, Bool.false_eq_true, if_false, chromaDeleteIds]
    refine congrArg some (List.filter_eq_nil_iff.mpr ?_)
    intro c hc
    simp
    exact ⟨c, hc, rfl⟩

/-- A newline join with at least one non-empty member is non-empty. -/
theorem pyJoin_ne_empty (l : List String) (d : String) (hd : d ∈ l) (hne : d ≠ "") :
    pyJoin nl l ≠ "" := by
  cases l with
  | nil => cases hd
  | cons x xs =>
    cases xs with
    | nil =>
      have hx : d = x := by simpa using hd
      rw [hx] at hne
      simpa [pyJoin] using hne
    | cons y ys =>
      intro hcontra
      have hlen := congrArg String.length hcontra
      have hnl : nl.length = 1 := by decide
      have h0 : String.length "" = 0 := rfl
      simp only [pyJoin, String.length_append, hnl, h0] at hlen
      omega

/-- C2 (amended): for queries whose lowercased, stripped text is in the
orchestrator's own greeting list ["hi","hello","hey"], both the document-index
and the web search are skipped and the resolved source label is
"General Knowledge" — returned as such whenever the completion call succeeds.
The classifier's two extra greetings "sup" and "how are you" are classified
CHAT without an LLM call but may still trigger a document-index lookup, so the
claim's full greeting list does not skip retrieval (see the counterexample). -/
theorem C2_greeting_skips_retrieval (env : Env) (q : String)
    (hist : List (String × String)) (w : Bool) (uid : Nat) (si : Option String)
    (hq : runAgentGreetings.contains (pyStrip (pyLower q)) = true) :
    (run_agent env q hist w uid si).pdfSearched = false ∧
    (run_agent env q hist w uid si).webSearched = false ∧
    (run_agent env q hist w uid si).resolvedSource = "General Knowledge" ∧
    ∀ t, env.completion = Except.ok t →
      (run_agent env q hist w uid si).sourceLabel = "General Knowledge" := by
  have h1 : pdf_step env q uid true (determine_intent env q)
      = ("", "General Knowledge", false) := by
    simp [pdf_step]
  have h2 : web_step env q w true (determine_intent env q) "" "General Knowledge"
      = ("", "General Knowledge", false) := by
    simp [web_step]
  have hq' : pyStrip (pyLower q) ∈ runAgentGreetings := by simpa using hq
  cases hc : env.completion with
  | ok t => refine ⟨?_, ?_, ?_, ?_⟩ <;> simp [run_agent, hq', h1, h2, hc]
  | error e => refine ⟨?_, ?_, ?_, ?_⟩ <;> simp [run_agent, hq', h1, h2, hc]

/-- A stored chunk owned by user 7, retrievable by user 7's queries. -/
def supChunk : VChunk := ⟨"id1", "general notes", Nat.repr 7, "notes.pdf"⟩

/-- Environment for the C2 counterexample: the index holds one chunk of the
calling user, the completion succeeds. -/
def envSup : Env :=
  { intentResp := none
    col := some [supChunk]
    rank := fun l => l
    pdfExc := false
    tavilyAvailable := false
    webResults := none
    completion := Except.ok "doing well"
    today := "2026-10-12" }

/-- C2 counterexample: the query "sup" matches the fixed greeting list of the
intent classifier (case-insensitive, trimmed), yet the orchestrator still
queries the document index and the returned source label is
"Uploaded Document", not "General Knowledge". -/
theorem C2_counterexample :
    intentGreetings.contains (pyStrip (pyLower "sup")) = true ∧
    (run_agent envSup "sup" [] true 7 none).pdfSearched = true ∧
    (run_agent envSup "sup" [] true 7 none).sourceLabel = "Uploaded Document" := by
  decide

/-- Environment for the C2 witness: retrieval fully available, completion ok. -/
def envHi : Env :=
  { intentResp := none
    col := some [supChunk]
    rank := fun l => l
    pdfExc := false
    tavilyAvailable := true
    webResults := some [(⟨"title", "content"⟩ : WebResult)]
    completion := Except.ok "hello to you"
    today := "2026-10-12" }

/-- Witness for C2_greeting_skips_retrieval at the query "hi". -/
theorem C2_greeting_skips_retrieval_witness :
    (run_agent envHi "hi" [] true 7 none).pdfSearched = false ∧
    (run_agent envHi "hi" [] true 7 none).webSearched = false ∧
    (run_agent envHi "hi" [] true 7 none).resolvedSource = "General Knowledge" ∧
    ∀ t, envHi.completion = Except.ok t →
      (run_agent envHi "hi" [] true 7 none).sourceLabel = "General Knowledge" :=
  C2_greeting_skips_retrieval envHi "hi" [] true 7 none (by decide)

/-- C5: whenever the document search, as invoked by the agent, returns at
least one non-empty document text, web search is never invoked and the
resolved source label is "Uploaded Document" — returned as such whenever the
completion call succeeds. -/
theorem C5_document_hit_blocks_web (env : Env) (q : String)
    (hist : List (String × String)) (w : Bool) (uid : Nat) (si : Option String)
    (store : List VChunk) (d : String)
    (hcol : env.col = some store) (hexc : env.pdfExc = false)
    (hp : (run_agent env q hist w uid si).pdfSearched = true)
    (hd : d ∈ (chromaQuery store (Nat.repr uid) 5 env.rank).map (fun c => c.text))
    (hne : d ≠ "") :
    (run_agent env q hist w uid si).webSearched = false ∧
    (run_agent env q hist w uid si).resolvedSource = "Uploaded Document" ∧
    ∀ t, env.completion = Except.ok t →
      (run_agent env q hist w uid si).sourceLabel = "Uploaded Document" := by
  have hlen : 0 < ((chromaQuery store (Nat.repr uid) 5 env.rank).map (fun c => c.text)).length :=
    List.length_pos_of_mem hd
  have hsearch : search_pdf_sync env q (Nat.repr uid)
      = some (pyJoin nl ((chromaQuery store (Nat.repr uid) 5 env.rank).map (fun c => c.text))) := by
    simp [search_pdf_sync, hcol, hexc, hlen]
    intro hnil
    rw [hnil] at hd
    simp at hd
  have hjoin : pyJoin nl ((chromaQuery store (Nat.repr uid) 5 env.rank).map (fun c => c.text))
      ≠ "" := pyJoin_ne_empty _ d hd hne
  by_cases hb : runAgentGreetings.contains (pyStrip (pyLower q)) = false ∧
      (determine_intent env q = "PDF" ∨
        (determine_intent env q = "CHAT" ∧ env.col.isSome = true))
  · have h1 : pdf_step env q uid (runAgentGreetings.contains (pyStrip (pyLower q)))
        (determine_intent env q)
        = (pyJoin nl ((chromaQuery store (Nat.repr uid) 5 env.rank).map (fun c => c.text)),
           "Uploaded Document", true) := by
      unfold pdf_step
      rw [if_pos hb, hsearch]
      simp [hjoin]
    have h2 : web_step env q w (runAgentGreetings.contains (pyStrip (pyLower q)))
        (determine_intent env q)
        (pyJoin nl ((chromaQuery store (Nat.repr uid) 5 env.rank).map (fun c => c.text)))
        "Uploaded Document"
        = (pyJoin nl ((chromaQuery store (Nat.repr uid) 5 env.rank).map (fun c => c.text)),
           "Uploaded Document", false) := by
      unfold web_step
      rw [if_neg (fun hcontra => hjoin hcontra.2.1)]
    simp only [List.elem_eq_mem] at h1 h2
    cases hc : env.completion with
    | ok t => refine ⟨?_, ?_, ?_⟩ <;> simp [run_agent, h1, h2, hc]
    | error e => refine ⟨?_, ?_, ?_⟩ <;> simp [run_agent, h1, h2, hc]
  · exfalso
    have h1 : pdf_step env q uid (runAgentGreetings.contains (pyStrip (pyLower q)))
        (determine_intent env q) = ("", "General Knowledge", false) := by
      unfold pdf_step
      rw [if_neg hb]
    simp only [List.elem_eq_mem] at h1
    have hps : (run_agent env q hist w uid si).pdfSearched = false := by
      cases hc : env.completion with
      | ok t => simp [run_agent, h1, hc]
      | error e => simp [run_agent, h1, hc]
    rw [hps] at hp
    exact absurd hp (by decide)

/-- A stored chunk of user 3 for the C5 witness. -/
def contractChunk : VChunk := ⟨"i1", "contract terms", Nat.repr 3, "c.pdf"⟩

/-- Environment for the C5 witness: intent PDF, index hit, completion ok. -/
def envC5 : Env :=
  { intentResp := some "PDF"
    col := some [contractChunk]
    rank := fun l => l
    pdfExc := false
    tavilyAvailable := true
    webResults := some [(⟨"news", "body"⟩ : WebResult)]
    completion := Except.ok "summary"
    today := "2026-10-12" }

/-- Witness for C5_document_hit_blocks_web at a concrete retrieval hit. -/
theorem C5_document_hit_blocks_web_witness :
    (run_agent envC5 "what is in my contract" [] true 3 none).webSearched = false ∧
    (run_agent envC5 "what is in my contract" [] true 3 none).resolvedSource
        = "Uploaded Document" ∧
    ∀ t, envC5.completion = Except.ok t →
      (run_agent envC5 "what is in my contract" [] true 3 none).sourceLabel
        = "Uploaded Document" :=
  C5_document_hit_blocks_web envC5 "what is in my contract" [] true 3 none
    [contractChunk] "contract terms" rfl rfl (by decide) (by decide) (by decide)

/-- C6: per-user isolation of the document index. A search on behalf of user A
filters on the stored key str(A): every result chunk carries A's key, and no
chunk ingested on behalf of a different user B can appear among A's results,
because ingestion tags chunks with str(B) and decimal rendering is injective.
The ranking oracle may reorder or drop candidates but draws only from them. -/
theorem C6_user_isolation (A B : Nat) (store : List VChunk)
    (text filename : String) (ids : List String)
    (rank : List VChunk → List VChunk)
    (hrank : ∀ l c, c ∈ rank l → c ∈ l) (hAB : A ≠ B) :
    (∀ c ∈ chromaQuery store (Nat.repr A) 5 rank, c.user_id = Nat.repr A) ∧
    (∀ c ∈ ingest_chunks text filename B ids,
      c ∉ chromaQuery store (Nat.repr A) 5 rank) := by
  have hq : ∀ c ∈ chromaQuery store (Nat.repr A) 5 rank, c.user_id = Nat.repr A := by
    intro c hc
    have h1 : c ∈ rank (store.filter (fun c => c.user_id == Nat.repr A)) :=
      List.mem_of_mem_take hc
    have h2 := hrank _ c h1
    have h3 := (List.mem_filter.mp h2).2
    exact eq_of_beq h3
  refine ⟨hq, ?_⟩
  intro c hcB hcq
  have hA := hq c hcq
  have hB : c.user_id = Nat.repr B := by
    simp only [ingest_chunks, List.mem_map] at hcB
    obtain ⟨p, hp, hpc⟩ := hcB
    rw [← hpc]
  exact hAB (natRepr_injective A B (hA ▸ hB))

/-- A stored chunk of user 2 for the C6 witness. -/
def otherChunk : VChunk := ⟨"i0", "private notes", Nat.repr 2, "b.pdf"⟩

/-- Witness for C6_user_isolation with users 1 and 2. -/
theorem C6_user_isolation_witness :
    (∀ c ∈ chromaQuery [otherChunk] (Nat.repr 1) 5 (fun l => l), c.user_id = Nat.repr 1) ∧
    (∀ c ∈ ingest_chunks "secret text" "b.pdf" 2 ["i1"],
      c ∉ chromaQuery [otherChunk] (Nat.repr 1) 5 (fun l => l)) :=
  C6_user_isolation 1 2 [otherChunk] "secret text" "b.pdf" ["i1"] (fun l => l)
    (fun l c h => h) (by omega)

/-- C7: the classifier always lands in {WEB, PDF, CHAT}: any LLM answer whose
stripped uppercase form is neither WEB nor PDF maps to CHAT, and a raised
classification request also yields CHAT instead of propagating. -/
theorem C7_intent_total (env : Env) (q : String) :
    (determine_intent env q = "WEB" ∨ determine_intent env q = "PDF" ∨
      determine_intent env q = "CHAT") ∧
    (env.intentResp = none → determine_intent env q = "CHAT") ∧
    (∀ r, env.intentResp = some r → pyUpper (pyStrip r) ≠ "WEB" →
      pyUpper (pyStrip r) ≠ "PDF" → determine_intent env q = "CHAT") := by
  refine ⟨?_, ?_, ?_⟩
  · unfold determine_intent
    split
    · exact Or.inr (Or.inr rfl)
    · cases env.intentResp with
      | none => exact Or.inr (Or.inr rfl)
      | some r =>
        by_cases hi : pyUpper (pyStrip r) = "WEB" ∨ pyUpper (pyStrip r) = "PDF"
        · rcases hi with h | h
          · left; simp [h]
          · right; left; simp [h]
        · right; right; simp [hi]
  · intro hn
    unfold determine_intent
    rw [hn]
    split
    · rfl
    · rfl
  · intro r hr hw hp
    unfold determine_intent
    rw [hr]
    split
    · rfl
    · simp [hw, hp]

/-- Environment in which the classification request raises. -/
def envC7a : Env :=
  { intentResp := none
    col := none
    rank := fun l => l
    pdfExc := false
    tavilyAvailable := false
    webResults := none
    completion := Except.ok "fine"
    today := "2026-10-12" }

/-- Environment in which the classifier answers off the WEB/PDF list. -/
def envC7b : Env := { envC7a with intentResp := some "BANANA" }

/-- Witness for C7_intent_total: a raised request and an off-list answer both
classify as CHAT. -/
theorem C7_intent_total_witness :
    determine_intent envC7a "compare these options" = "CHAT" ∧
    determine_intent envC7b "compare these options" = "CHAT" :=
  ⟨(C7_intent_total envC7a "compare these options").2.1 rfl,
   (C7_intent_total envC7b "compare these options").2.2 "BANANA" rfl
     (by decide) (by decide)⟩

/-- C8: a raised completion call is converted, not propagated: the agent
returns the error message string paired with source label "Error". -/
theorem C8_completion_error (env : Env) (q : String) (hist : List (String × String))
    (w : Bool) (uid : Nat) (si : Option String) (e : String)
    (he : env.completion = Except.error e) :
    (run_agent env q hist w uid si).answer = "I encountered an error: " ++ e ∧
    (run_agent env q hist w uid si).sourceLabel = "Error" := by
  refine ⟨?_, ?_⟩ <;> simp [run_agent, he]

/-- Environment whose completion call raises. -/
def envErr : Env :=
  { intentResp := some "WEB"
    col := none
    rank := fun l => l
    pdfExc := false
    tavilyAvailable := false
    webResults := none
    completion := Except.error "rate limited"
    today := "2026-10-12" }

/-- Witness for C8_completion_error. -/
theorem C8_completion_error_witness :
    (run_agent envErr "latest news" [] true 1 none).answer
        = "I encountered an error: " ++ "rate limited" ∧
    (run_agent envErr "latest news" [] true 1 none).sourceLabel = "Error" :=
  C8_completion_error envErr "latest news" [] true 1 none "rate limited" rfl

/-- C9: the caller-supplied persona is used verbatim as the base persona
exactly when it is present and longer than 5 characters; a missing persona or
one of length at most 5 is replaced by the fixed default persona. -/
theorem C9_persona (env : Env) (q : String) (hist : List (String × String))
    (w : Bool) (uid : Nat) :
    (∀ s : String,
      ((run_agent env q hist w uid (some s)).basePersona = s ↔ 5 < s.length)) ∧
    (∀ s : String, s.length ≤ 5 →
      (run_agent env q hist w uid (some s)).basePersona = defaultPersona) ∧
    (run_agent env q hist w uid none).basePersona = defaultPersona := by
  have hbp : ∀ si, (run_agent env q hist w uid si).basePersona = base_persona_of si := by
    intro si
    cases hc : env.completion <;> simp [run_agent, hc]
  refine ⟨?_, ?_, ?_⟩
  · intro s
    rw [hbp]
    constructor
    · intro h
      by_cases h5 : s ≠ "" ∧ 5 < s.length
      · exact h5.2
      · exfalso
        have hdef : base_persona_of (some s) = defaultPersona := by
          simp only [base_persona_of, if_neg h5]
        rw [hdef] at h
        have hlen := congrArg String.length h
        have h41 : 5 < defaultPersona.length := by decide
        push_neg at h5
        by_cases hs : s = ""
        · rw [hs] at hlen
          have h0 : String.length "" = 0 := rfl
          omega
        · have := h5 hs
          omega
    · intro h5
      have hne : s ≠ "" := by
        intro hs
        rw [hs] at h5
        have h0 : String.length "" = 0 := rfl
        omega
      simp [base_persona_of, hne, h5]
  · intro s hs
    rw [hbp]
    have hnot : ¬ (s ≠ "" ∧ 5 < s.length) := by
      intro hcontra
      omega
    simp only [base_persona_of, if_neg hnot]
  · rw [hbp]
    rfl

/-- Witness for C9_persona: a 2-character persona is ignored for the default,
a longer one is used verbatim. -/
theorem C9_persona_witness :
    (run_agent envC7a "write a haiku" [] false 1 (some "hi")).basePersona
        = defaultPersona ∧
    (run_agent envC7a "write a haiku" [] false 1 (some "You answer in verse")).basePersona
        = "You answer in verse" :=
  ⟨(C9_persona envC7a "write a haiku" [] false 1).2.1 "hi" (by decide),
   ((C9_persona envC7a "write a haiku" [] false 1).1 "You answer in verse").mpr (by decide)⟩

/-- C10: every handled chat request appends exactly two messages, in order:
the user message carrying the submitted query, then the model message whose
content is the returned response text; when the agent call raises, that
response is the fallback error text and the response source is "Error". -/
theorem C10_chat_appends_two (db : RelDB) (uid : Nat) (req : ChatReq)
    (out : Except String (String × String)) :
    (chat_endpoint db uid req out).1.messages =
      db.messages ++
        [⟨req.session_id, "user", req.query⟩,
         ⟨req.session_id, "model", (chat_endpoint db uid req out).2.response⟩] ∧
    (∀ e, out = Except.error e →
      (chat_endpoint db uid req out).2.response
          = "I'm having trouble thinking right now. Error: " ++ e ∧
      (chat_endpoint db uid req out).2.source = "Error") := by
  constructor
  · by_cases hs : db.sessions.any (fun s => s.id == req.session_id && s.user_id == uid)
    · cases out <;> simp [chat_endpoint, hs]
    · cases out <;> simp [chat_endpoint, hs]
  · intro e he
    rw [he]
    refine ⟨?_, ?_⟩ <;> simp [chat_endpoint]

/-- Empty store for the C10 witness. -/
def c10DB : RelDB := ⟨[], []⟩

/-- Fixture request for the C10 witness. -/
def c10Req : ChatReq := ⟨"s9", "what is 2+2"⟩

/-- Witness for C10_chat_appends_two on an empty store with a raising agent. -/
theorem C10_chat_appends_two_witness :
    (chat_endpoint c10DB 1 c10Req (Except.error "timeout")).1.messages =
      c10DB.messages ++
        [⟨c10Req.session_id, "user", c10Req.query⟩,
         ⟨c10Req.session_id, "model",
           (chat_endpoint c10DB 1 c10Req (Except.error "timeout")).2.response⟩] ∧
    ((chat_endpoint c10DB 1 c10Req (Except.error "timeout")).2.response
        = "I'm having trouble thinking right now. Error: " ++ "timeout" ∧
     (chat_endpoint c10DB 1 c10Req (Except.error "timeout")).2.source = "Error") :=
  ⟨(C10_chat_appends_two c10DB 1 c10Req (Except.error "timeout")).1,
   (C10_chat_appends_two c10DB 1 c10Req (Except.error "timeout")).2 "timeout" rfl⟩
